import Mathlib

/-!
Verification development for the command safety and execution pipeline of the
Personal-AI-Agent repository.  The Python sources are shallowly embedded as
executable Lean definitions:

* `src/src/safety_advanced/sandbox.py`   → namespace `Sandbox`
* `src/src/executor/validators.py`       → namespace `Validators`
* `src/src/utils/privilege_manager.py`   → namespace `Privilege`
* `src/src/utils/failure_classifier.py`  → namespace `Failure`
* `src/src/executor/command_executor.py` → namespace `Executor`
* `src/cli_phase3.py` (process_request) and `src/src/safety/audit.py`
                                         → namespace `Pipeline`
* `src/src/safety_advanced/backup_manager.py` → namespace `Backup`

Strings are modelled as `List Char` where convenient; Python regular
expressions used by the sources fall into a tiny fragment (literal
characters, `\s+`, single character classes and `.*`), which is embedded as
the token language `Tok` with a fuelled backtracking matcher so that every
definition is kernel-executable.
-/

namespace PyStr

/-- Python whitespace (`\s` of `re`, and `str.strip`/`str.split` defaults):
space, tab, newline, carriage return, vertical tab, form feed. -/
def isPyWs (c : Char) : Bool :=
  c = ' ' || c = '\t' || c = '\n' || c = '\r' || c = Char.ofNat 11 || c = Char.ofNat 12

/-- ASCII lowercasing, the fragment of Python `str.lower` exercised by the
commands in this repository (all command text is ASCII). -/
def lowerChar (c : Char) : Char :=
  if 'A' ≤ c ∧ c ≤ 'Z' then Char.ofNat (c.toNat + 32) else c

/-- ASCII uppercasing (fragment of Python `str.upper`). -/
def upperChar (c : Char) : Char :=
  if 'a' ≤ c ∧ c ≤ 'z' then Char.ofNat (c.toNat - 32) else c

def isAsciiAlpha (c : Char) : Bool :=
  ('a' ≤ c ∧ c ≤ 'z') || ('A' ≤ c ∧ c ≤ 'Z')

def lowerList (l : List Char) : List Char := l.map lowerChar

/-- Python `s.lower()` (ASCII fragment). -/
def pyLower (s : String) : String := String.mk (lowerList s.toList)

/-- Drop the characters satisfying `p` from both ends of a list. -/
def stripList (p : Char → Bool) (l : List Char) : List Char :=
  ((l.dropWhile p).reverse.dropWhile p).reverse

/-- Python `s.strip()` (no argument: strips whitespace). -/
def pyStrip (s : String) : String := String.mk (stripList isPyWs s.toList)

/-- The backtick character, via a string literal. -/
def backquoteChar : Char := ("`".toList).headD ' '

/-- Python `s.strip('`')` as used by the command executor. -/
def stripBackticks (s : String) : String :=
  String.mk (stripList (fun c => c = backquoteChar) s.toList)

/-- Python `prefix_arg in s` / `str.startswith` over lists. -/
def startsWith (pre s : String) : Bool := pre.toList.isPrefixOf s.toList

/-- Python `s.replace('_', ' ')` (single-character pattern). -/
def replaceUnderscores (l : List Char) : List Char :=
  l.map (fun c => if c = '_' then ' ' else c)

/-- Python `str.title` on ASCII text: a letter is uppercased when the previous
character is not a letter, lowercased otherwise.  The boolean argument records
whether the previous character was a letter. -/
def titleAux : Bool → List Char → List Char
  | _, [] => []
  | prevAlpha, c :: rest =>
    if isAsciiAlpha c then
      (if prevAlpha then lowerChar c else upperChar c) :: titleAux true rest
    else
      c :: titleAux false rest

/-- Python `s.replace('_', ' ').title()` used for operation names. -/
def pyTitleUnderscores (s : String) : String :=
  String.mk (titleAux false (replaceUnderscores s.toList))

/-- Python `"sep".join` specialised to newline, as used when building the
privilege-refusal stderr. -/
def joinNewline : List String → String
  | [] => ""
  | [s] => s
  | s :: rest => s ++ "\n" ++ joinNewline rest

end PyStr

namespace Rex

open PyStr

/-- Tokens of the regular-expression fragment appearing in the repository:
a literal character, `\s+`, a one-character class `[...]`, and `.*`. -/
inductive Tok where
  | lit (c : Char)
  | ws
  | cls (cs : List Char)
  | dot
deriving Repr, DecidableEq

/-- Backtracking matcher: `matchToks fuel ts s` decides whether the token
sequence `ts` matches a prefix of `s` (the tail of `s` is unconstrained,
as with `re.search` once a start position is fixed).  The fuel argument
only makes the recursion structural; every call site supplies enough fuel
(`ts.length + s.length + 1` suffices, as each recursive call strictly
decreases `ts.length + s.length`). -/
def matchToks : Nat → List Tok → List Char → Bool
  | 0, _, _ => false
  | _ + 1, [], _ => true
  | _ + 1, Tok.lit _ :: _, [] => false
  | f + 1, Tok.lit c :: ts, d :: s => c = d && matchToks f ts s
  | _ + 1, Tok.ws :: _, [] => false
  | f + 1, Tok.ws :: ts, d :: s =>
      isPyWs d && (matchToks f ts s || matchToks f (Tok.ws :: ts) s)
  | _ + 1, Tok.cls _ :: _, [] => false
  | f + 1, Tok.cls cs :: ts, d :: s => cs.contains d && matchToks f ts s
  | f + 1, Tok.dot :: ts, [] => matchToks f ts []
  | f + 1, Tok.dot :: ts, d :: s =>
      matchToks f ts (d :: s) || matchToks f (Tok.dot :: ts) s

/-- `re.search`: try to match the token sequence at every start position. -/
def searchToks (ts : List Tok) : List Char → Bool
  | [] => matchToks (ts.length + 1) ts []
  | d :: s =>
      matchToks (ts.length + (d :: s).length + 1) ts (d :: s) || searchToks ts s

/-- A run of literal tokens spelling out a string. -/
def litToks (s : String) : List Tok := s.toList.map Tok.lit

/-- Python `sub in hay` (contiguous substring test) via the matcher. -/
def containsSub (sub : String) (hay : List Char) : Bool :=
  searchToks (litToks sub) hay

/-- The character class `[a-z]`. -/
def azChars : List Char := "abcdefghijklmnopqrstuvwxyz".toList

end Rex

namespace Sandbox

open PyStr Rex

/-- `CommandSandbox.PROTECTED_PATHS` (sandbox.py lines 17-23). -/
def PROTECTED_PATHS : List String :=
  [ "C:\\Windows\\System32"
  , "C:\\Windows\\SysWOW64"
  , "C:\\Windows\\WinSxS"
  , "C:\\Program Files\\WindowsApps"
  , "C:\\Windows\\Boot" ]

/-- `CommandSandbox.DANGEROUS_PATTERNS` (sandbox.py lines 26-36), each raw
Python regex translated token by token.  Note that in the raw strings of the
source, `\\\\` denotes TWO literal backslashes and the `Remove-Item`, `del`
and `rd` patterns contain uppercase letters, although `validate_command`
searches them (without `re.IGNORECASE`) over the lowercased command. -/
def DANGEROUS_PATTERNS : List (List Tok) :=
  [ -- r"format\s+[a-z]:"
    litToks "format" ++ [Tok.ws, Tok.cls azChars] ++ litToks ":"
  , -- r"cipher\s+/w"
    litToks "cipher" ++ [Tok.ws] ++ litToks "/w"
  , -- r"takeown\s+/f.*\\windows"
    litToks "takeown" ++ [Tok.ws] ++ litToks "/f" ++ [Tok.dot] ++ litToks "\\windows"
  , -- r"icacls.*\\windows.*\/grant"
    litToks "icacls" ++ [Tok.dot] ++ litToks "\\windows" ++ [Tok.dot] ++ litToks "/grant"
  , -- r"reg\s+delete.*\\windows"
    litToks "reg" ++ [Tok.ws] ++ litToks "delete" ++ [Tok.dot] ++ litToks "\\windows"
  , -- r"Remove-Item.*-Recurse.*C:\\\\Windows"
    litToks "Remove-Item" ++ [Tok.dot] ++ litToks "-Recurse" ++ [Tok.dot] ++
      litToks "C:\\\\Windows"
  , -- r"rm\s+-rf\s+/"
    litToks "rm" ++ [Tok.ws] ++ litToks "-rf" ++ [Tok.ws] ++ litToks "/"
  , -- r"del\s+/[fqs]\s+C:\\\\Windows"
    litToks "del" ++ [Tok.ws] ++ litToks "/" ++
      [Tok.cls ['f', 'q', 's'], Tok.ws] ++ litToks "C:\\\\Windows"
  , -- r"rd\s+/s\s+/q.*C:\\\\Windows"
    litToks "rd" ++ [Tok.ws] ++ litToks "/s" ++ [Tok.ws] ++ litToks "/q" ++
      [Tok.dot] ++ litToks "C:\\\\Windows" ]

/-- `CommandSandbox.SAFE_COMMANDS` (sandbox.py lines 39-63). -/
def SAFE_COMMANDS : List String :=
  [ "get-location", "get-childitem", "get-content", "get-process"
  , "get-service", "get-computerinfo", "get-date", "get-help", "get-item"
  , "get-itemproperty", "select-object", "where-object", "format-table"
  , "format-list", "measure-object", "sort-object", "test-path"
  , "get-appxpackage", "get-wmiobject", "systeminfo", "ipconfig"
  , "netstat", "tasklist" ]

/-- `CommandSandbox.HIGH_RISK_COMMANDS` (sandbox.py lines 66-73). -/
def HIGH_RISK_COMMANDS : List String :=
  [ "format-volume", "clear-disk", "initialize-disk", "remove-partition"
  , "disable-windowsupdate", "set-executionpolicy unrestricted" ]

/-- The mutable configuration of a `CommandSandbox` instance: the custom
denylist and allowlist loaded from `config/sandbox.json` by `_load_config`. -/
structure Config where
  custom_denylist : List String
  custom_allowlist : List String
deriving Repr, DecidableEq

/-- The fields of the result dict of `validate_command` that are common to
all branches (`pattern` / `path` / `command` / `recommendation` are
informational extras in the source and are not modelled). -/
structure Verdict where
  allowed : Bool
  reason : String
  risk_level : String
  requires_extra_confirmation : Bool := false
deriving Repr, DecidableEq

/-- `command.lower().strip()` — the text every sandbox rule is checked on
(sandbox.py line 111). -/
def commandLower (command : String) : List Char :=
  stripList isPyWs (lowerList command.toList)

/-- The first dangerous-pattern loop of `validate_command`
(sandbox.py lines 120-128): some pattern `re.search`-matches the lowercased,
stripped command. -/
def dangerousHit (command : String) : Bool :=
  DANGEROUS_PATTERNS.any (fun p => searchToks p (commandLower command))

/-- The protected-path check of `validate_command` (sandbox.py lines
131-141): a protected path occurs (lowercased) in the command and the
command contains a destructive word. -/
def protectedHit (command : String) : Bool :=
  PROTECTED_PATHS.any (fun p => containsSub (pyLower p) (commandLower command)) &&
    (["remove", "delete", "del ", "rd ", "rm "].any
      (fun w => containsSub w (commandLower command)))

/-- The custom-denylist loop (sandbox.py lines 144-151). -/
def denylistHit (cfg : Config) (command : String) : Bool :=
  cfg.custom_denylist.any (fun d => containsSub (pyLower d) (commandLower command))

/-- The high-risk-command loop (sandbox.py lines 154-162). -/
def highRiskHit (command : String) : Bool :=
  HIGH_RISK_COMMANDS.any (fun h => containsSub h (commandLower command))

/-- `first_word` and the `is_safe_cmd` test (sandbox.py lines 114-117):
some safe command name is a substring of the first whitespace-separated
word of the lowercased, stripped command. -/
def isSafeCmd (command : String) : Bool :=
  let first_word := (commandLower command).takeWhile (fun c => !isPyWs c)
  SAFE_COMMANDS.any (fun sc => containsSub sc first_word)

/-- `CommandSandbox.validate_command` (sandbox.py lines 101-178).  The checks
run in source order; the custom allowlist loaded by `_load_config` is never
consulted by this function. -/
def validate_command (cfg : Config) (command : String) : Verdict :=
  if dangerousHit command then
    { allowed := false
    , reason := "Matches dangerous pattern - this command could cause severe system damage"
    , risk_level := "CRITICAL" }
  else if protectedHit command then
    { allowed := false
    , reason := "Targets protected system path with destructive operation"
    , risk_level := "CRITICAL" }
  else if denylistHit cfg command then
    { allowed := false
    , reason := "Command in user denylist"
    , risk_level := "HIGH" }
  else if highRiskHit command then
    { allowed := true
    , reason := "High-risk command requires explicit approval"
    , risk_level := "HIGH"
    , requires_extra_confirmation := true }
  else if isSafeCmd command then
    { allowed := true
    , reason := "Safe read-only command"
    , risk_level := "LOW" }
  else
    { allowed := true
    , reason := "Command passed safety checks but is not in safe list"
    , risk_level := "MEDIUM" }

end Sandbox

section SandboxChecks

example : Sandbox.dangerousHit "rm -rf /" = true := by decide
example : Sandbox.dangerousHit "Remove-Item -Recurse C:\\" = false := by decide
example : Sandbox.dangerousHit "Remove-Item -Recurse C:\\Windows" = false := by decide
example : (Sandbox.validate_command ⟨[], []⟩ "Remove-Item -Recurse C:\\").risk_level
    = "MEDIUM" := by decide
example : (Sandbox.validate_command ⟨[], []⟩ "get-process").risk_level = "LOW" := by
  decide

end SandboxChecks

namespace Validators

open PyStr Rex

/-- `CommandValidator.DANGEROUS_PATTERNS` (validators.py lines 16-24).
`validate` searches these with `re.IGNORECASE`; this is modelled by writing
the pattern literals in lowercase and searching the lowercased command
(all patterns are ASCII, where the two are equivalent; the class `[a-zA-Z]`
becomes `[a-z]` on lowercased text). -/
def DANGEROUS_PATTERNS : List (List Tok) :=
  [ -- r'rm\s+-rf\s+/'
    litToks "rm" ++ [Tok.ws] ++ litToks "-rf" ++ [Tok.ws] ++ litToks "/"
  , -- r'Remove-Item.*-Recurse.*C:\\'   (a single literal backslash)
    litToks "remove-item" ++ [Tok.dot] ++ litToks "-recurse" ++ [Tok.dot] ++
      litToks "c:\\"
  , -- r'format\s+[a-zA-Z]:'
    litToks "format" ++ [Tok.ws, Tok.cls azChars] ++ litToks ":"
  , -- r'reg\s+delete.*HKLM'
    litToks "reg" ++ [Tok.ws] ++ litToks "delete" ++ [Tok.dot] ++ litToks "hklm"
  , -- r'bcdedit'
    litToks "bcdedit"
  , -- r'diskpart'
    litToks "diskpart"
  , -- r'cipher\s+/w'
    litToks "cipher" ++ [Tok.ws] ++ litToks "/w" ]

/-- `CommandValidator.ADMIN_REQUIRED_KEYWORDS` (validators.py lines 27-33). -/
def ADMIN_REQUIRED_KEYWORDS : List String :=
  [ "reg delete", "reg add", "sc stop", "sc delete", "net stop", "net start"
  , "Set-Service", "Remove-Service" ]

/-- `CommandValidator.SAFE_COMMANDS` (validators.py lines 36-40). -/
def SAFE_COMMANDS : List String :=
  [ "Get-Process", "Get-Service", "Get-ChildItem", "Test-Path", "Get-Content"
  , "Get-Location", "Get-Date", "Get-Help" ]

/-- The alternation `r'Remove-Item|rm|del\s+'` (validators.py line 78),
searched with `re.IGNORECASE`: a top-level alternation searches iff one of
its branches searches. -/
def DELETION_PATTERNS : List (List Tok) :=
  [ litToks "remove-item", litToks "rm", litToks "del" ++ [Tok.ws] ]

/-- First loop of `validate` (validators.py lines 59-61). -/
def dangerousHit (command : String) : Bool :=
  DANGEROUS_PATTERNS.any (fun p => searchToks p (lowerList command.toList))

/-- Second loop of `validate` (validators.py lines 64-66):
`command.strip().startswith(safe_cmd)` for some safe command
(case-sensitive in the source). -/
def safeHit (command : String) : Bool :=
  SAFE_COMMANDS.any (fun sc => startsWith sc (pyStrip command))

/-- `requires_admin` test inside `validate` (validators.py lines 69-72):
`keyword.lower() in command.lower()`. -/
def adminHit (command : String) : Bool :=
  ADMIN_REQUIRED_KEYWORDS.any
    (fun k => containsSub (pyLower k) (lowerList command.toList))

/-- The deletion check of `validate` (validators.py line 78). -/
def deletionHit (command : String) : Bool :=
  DELETION_PATTERNS.any (fun p => searchToks p (lowerList command.toList))

/-- The registry check of `validate` (validators.py line 83). -/
def registryHit (command : String) : Bool :=
  containsSub "reg " (lowerList command.toList) ||
    containsSub "registry" (lowerList command.toList)

/-- `CommandValidator.validate` (validators.py lines 42-91), returning the
tuple `(is_safe, warnings, risk_level)`. -/
def validate (command : String) : Bool × List String × String :=
  if dangerousHit command then
    (false, ["Command contains dangerous operation"], "dangerous")
  else if safeHit command then
    (true, [], "safe")
  else
    let warnings :=
      if adminHit command then ["Requires administrator privileges"] else []
    if deletionHit command then
      (true, warnings ++ ["This command will delete files/folders"], "caution")
    else if registryHit command then
      (true, warnings ++ ["This command modifies the Windows registry"], "caution")
    else if warnings ≠ [] then
      (true, warnings, "caution")
    else
      (true, [], "safe")

end Validators

section ValidatorChecks

example : Validators.validate "Remove-Item -Recurse C:\\" =
    (false, ["Command contains dangerous operation"], "dangerous") := by decide
example : Validators.validate "Get-Process" = (true, [], "safe") := by decide
example : Validators.validate "perform task" =
    (true, ["This command will delete files/folders"], "caution") := by decide

end ValidatorChecks

namespace Privilege

/-- `PrivilegeLevel` (privilege_manager.py lines 15-19). -/
inductive PrivilegeLevel where
  | ADMIN
  | STANDARD_USER
  | UNKNOWN
deriving Repr, DecidableEq

/-- `OperationRequirement` (privilege_manager.py lines 22-26). -/
inductive OperationRequirement where
  | REQUIRES_ADMIN
  | PREFERS_ADMIN
  | NO_ADMIN_NEEDED
deriving Repr, DecidableEq

/-- `PrivilegeCheck` dataclass (privilege_manager.py lines 29-38). -/
structure PrivilegeCheck where
  has_privilege : Bool
  current_level : PrivilegeLevel
  required_level : OperationRequirement
  can_proceed : Bool
  degraded_mode : Bool
  message : String
  suggestions : List String
deriving Repr, DecidableEq

/-- `self.admin_only_operations` (privilege_manager.py lines 54-61). -/
def admin_only_operations : List String :=
  [ "registry_write", "service_control", "system_restore"
  , "driver_management", "scheduled_task_create", "windows_update" ]

/-- `self.admin_preferred_operations` (privilege_manager.py lines 62-67). -/
def admin_preferred_operations : List String :=
  [ "app_uninstall", "disk_cleanup", "network_config", "firewall_config" ]

/-- `PrivilegeManager.check_operation` (privilege_manager.py lines 87-171).
The privilege level detected at process start is passed explicitly. -/
def check_operation (level : PrivilegeLevel) (operation_type : String)
    (operation_name : String := "") : PrivilegeCheck :=
  let is_admin := level = PrivilegeLevel.ADMIN
  let op_name :=
    if operation_name = "" then PyStr.pyTitleUnderscores operation_type
    else operation_name
  if admin_only_operations.contains operation_type then
    if is_admin then
      { has_privilege := true
      , current_level := level
      , required_level := .REQUIRES_ADMIN
      , can_proceed := true
      , degraded_mode := false
      , message := "✅ Admin privileges detected. Ready to execute: " ++ op_name
      , suggestions := [] }
    else
      { has_privilege := false
      , current_level := level
      , required_level := .REQUIRES_ADMIN
      , can_proceed := false
      , degraded_mode := true
      , message := "⚠️ " ++ op_name ++
          " requires administrator privileges. Running in analysis-only mode."
      , suggestions :=
          [ "Restart the application as Administrator"
          , "Right-click → \x27Run as Administrator\x27"
          , "Use PowerShell: Start-Process -Verb RunAs" ] }
  else if admin_preferred_operations.contains operation_type then
    if is_admin then
      { has_privilege := true
      , current_level := level
      , required_level := .PREFERS_ADMIN
      , can_proceed := true
      , degraded_mode := false
      , message := "✅ Admin privileges detected. Full capabilities enabled for: " ++
          op_name
      , suggestions := [] }
    else
      { has_privilege := false
      , current_level := level
      , required_level := .PREFERS_ADMIN
      , can_proceed := true
      , degraded_mode := true
      , message := "⚠️ " ++ op_name ++
          " works better with admin privileges. Some features may be limited."
      , suggestions :=
          [ "For full capabilities, restart as Administrator"
          , "Current mode: Limited user permissions"
          , "Some system changes may be restricted" ] }
  else
    { has_privilege := true
    , current_level := level
    , required_level := .NO_ADMIN_NEEDED
    , can_proceed := true
    , degraded_mode := false
    , message := "✅ Ready to execute: " ++ op_name
    , suggestions := [] }

end Privilege

section PrivilegeChecks

example :
    (Privilege.check_operation .STANDARD_USER "registry_write").can_proceed = false := by
  decide
example : (Privilege.check_operation .STANDARD_USER "registry_write").message =
    "⚠️ Registry Write requires administrator privileges. Running in analysis-only mode." := by
  decide
example : (Privilege.check_operation .ADMIN "general").can_proceed = true := by decide

end PrivilegeChecks

namespace Failure

open PyStr Rex

/-- `FailureType` (failure_classifier.py lines 14-27). -/
inductive FailureType where
  | PERMISSION_DENIED
  | LOCKED_FILE
  | SERVICE_DEPENDENCY
  | CORRUPT_UNINSTALL
  | RESOURCE_IN_USE
  | NETWORK_ERROR
  | TIMEOUT
  | NOT_FOUND
  | INVALID_SYNTAX
  | INSUFFICIENT_PRIVILEGES
  | DISK_SPACE
  | UNKNOWN
deriving Repr, DecidableEq

/-- `FailureAnalysis` dataclass (failure_classifier.py lines 30-40). -/
structure FailureAnalysis where
  failure_type : FailureType
  original_error : String
  diagnosis : String
  severity : String
  is_recoverable : Bool
  recovery_steps : List String
  prevention_tips : List String
  related_docs : List String
deriving Repr, DecidableEq

/-- `self.patterns` (failure_classifier.py lines 53-126), in dict insertion
order.  Every raw regex in the table uses only lowercase literals and `.*`. -/
def patterns : List (FailureType × List (List Tok)) :=
  [ (.PERMISSION_DENIED,
      [ litToks "access" ++ [Tok.dot] ++ litToks "denied"
      , litToks "permission" ++ [Tok.dot] ++ litToks "denied"
      , litToks "unauthorized"
      , litToks "forbidden"
      , litToks "not" ++ [Tok.dot] ++ litToks "allowed"
      , litToks "requires" ++ [Tok.dot] ++ litToks "administrator" ])
  , (.LOCKED_FILE,
      [ litToks "file" ++ [Tok.dot] ++ litToks "in use"
      , litToks "cannot" ++ [Tok.dot] ++ litToks "access" ++ [Tok.dot] ++ litToks "file"
      , litToks "being used by another process"
      , litToks "file" ++ [Tok.dot] ++ litToks "locked"
      , litToks "sharing violation" ])
  , (.SERVICE_DEPENDENCY,
      [ litToks "service" ++ [Tok.dot] ++ litToks "not" ++ [Tok.dot] ++ litToks "running"
      , litToks "dependency" ++ [Tok.dot] ++ litToks "failed"
      , litToks "requires" ++ [Tok.dot] ++ litToks "service"
      , litToks "dependent" ++ [Tok.dot] ++ litToks "service"
      , litToks "cannot" ++ [Tok.dot] ++ litToks "start" ++ [Tok.dot] ++ litToks "service" ])
  , (.CORRUPT_UNINSTALL,
      [ litToks "uninstall" ++ [Tok.dot] ++ litToks "failed"
      , litToks "corrupt" ++ [Tok.dot] ++ litToks "install"
      , litToks "registry" ++ [Tok.dot] ++ litToks "corrupt"
      , litToks "msi" ++ [Tok.dot] ++ litToks "error"
      , litToks "package" ++ [Tok.dot] ++ litToks "corrupt" ])
  , (.RESOURCE_IN_USE,
      [ litToks "resource" ++ [Tok.dot] ++ litToks "in use"
      , litToks "port" ++ [Tok.dot] ++ litToks "in use"
      , litToks "address" ++ [Tok.dot] ++ litToks "in use"
      , litToks "already" ++ [Tok.dot] ++ litToks "running" ])
  , (.NETWORK_ERROR,
      [ litToks "network" ++ [Tok.dot] ++ litToks "error"
      , litToks "connection" ++ [Tok.dot] ++ litToks "failed"
      , litToks "timeout" ++ [Tok.dot] ++ litToks "connect"
      , litToks "host" ++ [Tok.dot] ++ litToks "unreachable"
      , litToks "dns" ++ [Tok.dot] ++ litToks "failed" ])
  , (.TIMEOUT,
      [ litToks "timeout"
      , litToks "timed out"
      , litToks "operation" ++ [Tok.dot] ++ litToks "too" ++ [Tok.dot] ++ litToks "long" ])
  , (.NOT_FOUND,
      [ litToks "not found"
      , litToks "does not exist"
      , litToks "cannot find"
      , litToks "no such"
      , litToks "missing" ])
  , (.INVALID_SYNTAX,
      [ litToks "syntax" ++ [Tok.dot] ++ litToks "error"
      , litToks "invalid" ++ [Tok.dot] ++ litToks "command"
      , litToks "parse" ++ [Tok.dot] ++ litToks "error"
      , litToks "unexpected" ++ [Tok.dot] ++ litToks "token" ])
  , (.INSUFFICIENT_PRIVILEGES,
      [ litToks "requires elevation"
      , litToks "run as administrator"
      , litToks "admin" ++ [Tok.dot] ++ litToks "required"
      , litToks "elevated" ++ [Tok.dot] ++ litToks "privileges" ])
  , (.DISK_SPACE,
      [ litToks "disk" ++ [Tok.dot] ++ litToks "full"
      , litToks "not enough space"
      , litToks "insufficient" ++ [Tok.dot] ++ litToks "space"
      , litToks "out of" ++ [Tok.dot] ++ litToks "space" ]) ]

/-- Whether some classification pattern `re.search`-matches the lowercased
error text — the condition of the pattern loop in `_detect_failure_type`
(failure_classifier.py lines 163-166). -/
def anyPatternHit (error_message : String) : Bool :=
  patterns.any (fun e => e.2.any (fun p => searchToks p (lowerList error_message.toList)))

/-- `FailureClassifier._detect_failure_type` (failure_classifier.py lines
158-176): first pattern-table match wins, then well-known return codes,
then `UNKNOWN`. -/
def detect_failure_type (error_message : String) (return_code : Int) : FailureType :=
  match patterns.find?
      (fun e => e.2.any (fun p => searchToks p (lowerList error_message.toList))) with
  | some e => e.1
  | none =>
    if return_code = 5 then .PERMISSION_DENIED
    else if return_code = 32 then .LOCKED_FILE
    else if return_code = 2 then .NOT_FOUND
    else .UNKNOWN

/-- The value bundles of `recovery_guides` in `_get_recovery_info`
(failure_classifier.py lines 182-435). -/
structure RecoveryInfo where
  diagnosis : String
  severity : String
  recoverable : Bool
  steps : List String
  prevention : List String
  docs : List String
deriving Repr, DecidableEq

def unknownGuide : RecoveryInfo :=
  { diagnosis := "Unable to classify error type"
  , severity := "medium"
  , recoverable := false
  , steps :=
      [ "Review full error message"
      , "Check application logs"
      , "Search error message online"
      , "Contact support with error details"
      , "Try operation in Safe Mode"
      , "Create minimal reproduction case" ]
  , prevention :=
      [ "Keep detailed logs of operations"
      , "Test in isolated environment first"
      , "Document custom configurations" ]
  , docs := [ "Troubleshooting methodology", "Log analysis guide" ] }

/-- `FailureClassifier._get_recovery_info` (failure_classifier.py lines
178-437).  The `recovery_guides` dict has NO entry for `INVALID_SYNTAX`, so
`recovery_guides.get(failure_type, recovery_guides[FailureType.UNKNOWN])`
hands that category the UNKNOWN bundle (in particular `recoverable=False`).
The `operation_type` parameter is unused by the source body. -/
def get_recovery_info (failure_type : FailureType) (_operation_type : String) :
    RecoveryInfo :=
  match failure_type with
  | .PERMISSION_DENIED =>
    { diagnosis := "Access denied due to insufficient permissions"
    , severity := "high"
    , recoverable := true
    , steps :=
        [ "Restart the application as Administrator"
        , "Right-click → \x22Run as Administrator\x22"
        , "Check file/folder permissions"
        , "Verify you have ownership of the resource"
        , "Disable antivirus temporarily if blocking access" ]
    , prevention :=
        [ "Always run system management tools as Administrator"
        , "Set up proper file permissions ahead of time"
        , "Use User Account Control (UAC) appropriately" ]
    , docs := [ "Windows UAC documentation", "File permission management guide" ] }
  | .LOCKED_FILE =>
    { diagnosis := "File is locked by another process"
    , severity := "medium"
    , recoverable := true
    , steps :=
        [ "Identify which process has the file open"
        , "Use: Get-Process | Where-Object \x7b$_.Modules.FileName -like \x22*filename*\x22\x7d"
        , "Close the application using the file"
        , "Use LockHunter or Process Explorer to unlock"
        , "Restart in Safe Mode if needed"
        , "Reboot the system as last resort" ]
    , prevention :=
        [ "Close all applications before system operations"
        , "Use lsof (Linux) or Process Explorer (Windows) to check locks"
        , "Schedule operations during maintenance windows" ]
    , docs := [ "Process Explorer tool", "File locking troubleshooting guide" ] }
  | .SERVICE_DEPENDENCY =>
    { diagnosis := "Required service is not running or dependency failed"
    , severity := "high"
    , recoverable := true
    , steps :=
        [ "Check service status: Get-Service -Name ServiceName"
        , "Identify dependencies: Get-Service -Name ServiceName | Select-Object -ExpandProperty RequiredServices"
        , "Start dependent services first"
        , "Check service configuration: sc qc ServiceName"
        , "Review Event Viewer for service errors"
        , "Restart service with: Restart-Service -Name ServiceName -Force" ]
    , prevention :=
        [ "Always start services in dependency order"
        , "Configure automatic service startup"
        , "Monitor service health regularly" ]
    , docs := [ "Windows Services management", "Service dependency resolution guide" ] }
  | .CORRUPT_UNINSTALL =>
    { diagnosis := "Uninstall information is corrupted or incomplete"
    , severity := "high"
    , recoverable := true
    , steps :=
        [ "Use Windows Settings → Apps to uninstall"
        , "Run installer repair if available"
        , "Use Microsoft Fix It tool"
        , "Manually remove registry entries (backup first!)"
        , "Registry path: HKLM\\SOFTWARE\\Microsoft\\Windows\\CurrentVersion\\Uninstall"
        , "Clean up leftover files manually"
        , "Use third-party uninstaller (Revo Uninstaller, IObit)"
        , "Re-install then uninstall cleanly" ]
    , prevention :=
        [ "Always use official uninstallers"
        , "Create restore point before installing software"
        , "Keep installation files for repair purposes" ]
    , docs := [ "Registry backup and restore guide", "Manual application removal guide" ] }
  | .RESOURCE_IN_USE =>
    { diagnosis := "Resource (port, handle, etc.) is already in use"
    , severity := "medium"
    , recoverable := true
    , steps :=
        [ "Identify process using resource: netstat -ano | findstr :PORT"
        , "Stop conflicting process"
        , "Change resource allocation (different port, etc.)"
        , "Restart the service/application"
        , "Check for zombie processes" ]
    , prevention :=
        [ "Use unique ports for services"
        , "Properly close resources in applications"
        , "Monitor resource usage" ]
    , docs := [ "Port management guide", "Resource conflict resolution" ] }
  | .NETWORK_ERROR =>
    { diagnosis := "Network connectivity or DNS resolution failed"
    , severity := "medium"
    , recoverable := true
    , steps :=
        [ "Check network connection"
        , "Ping target host: ping hostname"
        , "Check DNS: nslookup hostname"
        , "Flush DNS cache: ipconfig /flushdns"
        , "Reset network adapter"
        , "Check firewall rules"
        , "Verify proxy settings" ]
    , prevention :=
        [ "Ensure stable network before operations"
        , "Use connection retry logic"
        , "Implement timeout handling" ]
    , docs := [ "Network troubleshooting guide", "DNS configuration guide" ] }
  | .INSUFFICIENT_PRIVILEGES =>
    { diagnosis := "Operation requires elevated administrator privileges"
    , severity := "critical"
    , recoverable := true
    , steps :=
        [ "Close application"
        , "Right-click application → \x22Run as Administrator\x22"
        , "Or use: Start-Process -Verb RunAs"
        , "Verify admin rights: net user %username%"
        , "Check UAC settings if repeatedly prompted" ]
    , prevention :=
        [ "Always run system tools as Administrator"
        , "Create shortcut with \x22Run as Administrator\x22 enabled"
        , "Configure UAC appropriately" ]
    , docs := [ "UAC configuration guide", "Administrator privileges guide" ] }
  | .DISK_SPACE =>
    { diagnosis := "Insufficient disk space for operation"
    , severity := "critical"
    , recoverable := true
    , steps :=
        [ "Check disk space: Get-PSDrive -PSProvider FileSystem"
        , "Run Disk Cleanup: cleanmgr"
        , "Delete temporary files"
        , "Empty Recycle Bin"
        , "Uninstall unused applications"
        , "Move files to another drive"
        , "Compress large files" ]
    , prevention :=
        [ "Monitor disk space regularly"
        , "Set up low disk space alerts"
        , "Clean up regularly with automated tasks" ]
    , docs := [ "Disk cleanup guide", "Storage management best practices" ] }
  | .NOT_FOUND =>
    { diagnosis := "Requested file, command, or resource not found"
    , severity := "medium"
    , recoverable := true
    , steps :=
        [ "Verify path spelling and capitalization"
        , "Check if resource exists: Test-Path \x22path\x22"
        , "Search for file: Get-ChildItem -Recurse -Filter \x22name\x22"
        , "Reinstall missing software"
        , "Restore from backup if deleted"
        , "Check environment variables for command paths" ]
    , prevention :=
        [ "Use absolute paths instead of relative"
        , "Verify resources before operations"
        , "Maintain regular backups" ]
    , docs := [ "Path management guide", "File recovery guide" ] }
  | .TIMEOUT =>
    { diagnosis := "Operation exceeded time limit"
    , severity := "low"
    , recoverable := true
    , steps :=
        [ "Increase timeout value"
        , "Check if operation is stuck"
        , "Break operation into smaller chunks"
        , "Check system performance (CPU, memory)"
        , "Retry operation during off-peak hours" ]
    , prevention :=
        [ "Set realistic timeout values"
        , "Optimize slow operations"
        , "Monitor system resources" ]
    , docs := [ "Performance optimization guide", "Timeout configuration" ] }
  | .INVALID_SYNTAX => unknownGuide
  | .UNKNOWN => unknownGuide

/-- `FailureClassifier.classify` (failure_classifier.py lines 128-156). -/
def classify (error_message : String) (return_code : Int := -1)
    (operation_type : String := "") : FailureAnalysis :=
  let failure_type := detect_failure_type error_message return_code
  let recovery_info := get_recovery_info failure_type operation_type
  { failure_type := failure_type
  , original_error := error_message
  , diagnosis := recovery_info.diagnosis
  , severity := recovery_info.severity
  , is_recoverable := recovery_info.recoverable
  , recovery_steps := recovery_info.steps
  , prevention_tips := recovery_info.prevention
  , related_docs := recovery_info.docs }

end Failure

section FailureChecks

example : (Failure.classify "Access is denied").failure_type = .PERMISSION_DENIED := by
  decide
example : (Failure.classify "syntax error at line 3").failure_type = .INVALID_SYNTAX := by
  decide
example : (Failure.classify "syntax error at line 3").is_recoverable = false := by
  decide
example : (Failure.classify "Command timed out after 30 seconds").failure_type
    = .TIMEOUT := by decide
example : (Failure.classify "xyzzy" 5).failure_type = .PERMISSION_DENIED := by decide
example : (Failure.classify "xyzzy" 1).failure_type = .UNKNOWN := by decide

end FailureChecks

namespace Executor

open PyStr

/-- `ExecutionResult` (command_executor.py lines 21-33).  The wall-clock
`timestamp` field is not modelled; `execution_time` is kept as an integer
number of seconds (the only value the claims depend on is the timeout). -/
structure ExecutionResult where
  success : Bool
  stdout : String
  stderr : String
  return_code : Int
  execution_time : Int
  failure_analysis : Option Failure.FailureAnalysis
deriving Repr, DecidableEq

/-- One element of `self.execution_history` / one line of the execution log
file: the dict built in `_log_execution` (command_executor.py lines 200-203). -/
structure LogEntry where
  command : String
  result : ExecutionResult
deriving Repr, DecidableEq

/-- The state of a `CommandExecutor` instance together with the ambient
process state it reads: the constructor flags (lines 61-73), the in-memory
history, the lines of the configured log file, the privilege level detected
by the global `PrivilegeManager`, and a counter of `subprocess.run` calls
(the OS-call boundary). -/
structure State where
  dry_run : Bool
  log_path : Option String
  execution_history : List LogEntry
  log_lines : List LogEntry
  priv_level : Privilege.PrivilegeLevel
  spawn_count : Nat
deriving Repr, DecidableEq

/-- What the spawned subprocess would do: the three ways the `try` block of
`execute` can resolve (command_executor.py lines 124-190): normal completion
with captured streams and exit code, `subprocess.TimeoutExpired`, or any
other exception with its message. -/
inductive SpawnOutcome where
  | completed (stdout stderr : String) (returncode : Int) (duration : Int)
  | timedOut
  | raised (msg : String)
deriving Repr, DecidableEq

/-- The stderr built for a privilege refusal (command_executor.py line 101):
`priv_check.message + "\n\nSuggestions:\n" + "\n".join(f"  • {s}" ...)`. -/
def privStderr (check : Privilege.PrivilegeCheck) : String :=
  check.message ++ "\n\nSuggestions:\n" ++
    joinNewline (check.suggestions.map (fun s => "  • " ++ s))

/-- `CommandExecutor._log_execution` (command_executor.py lines 192-212):
always appends to the in-memory history, and appends one line to the log
file when a log path is configured (file-write errors are swallowed). -/
def log_execution (st : State) (command : String) (result : ExecutionResult) :
    State :=
  let entry : LogEntry := { command := command, result := result }
  let st := { st with execution_history := st.execution_history ++ [entry] }
  match st.log_path with
  | some _ => { st with log_lines := st.log_lines ++ [entry] }
  | none => st

/-- `CommandExecutor.execute` (command_executor.py lines 75-190), returning
the `ExecutionResult` and the updated state.  Only the branch that reaches
`subprocess.run` increments `spawn_count`; note that `_log_execution` is
invoked only on the normal-completion path (line 156), not on the timeout
or exception paths. -/
def execute (st : State) (command : String) (timeout : Int := 30)
    (operation_type : String := "general") (operation_name : String := "")
    (outcome : SpawnOutcome := .completed "" "" 0 0) :
    ExecutionResult × State :=
  -- command = command.strip('`').strip()
  let command := pyStrip (stripBackticks command)
  let priv_check := Privilege.check_operation st.priv_level operation_type operation_name
  if priv_check.can_proceed = false then
    ( { success := false
      , stdout := ""
      , stderr := privStderr priv_check
      , return_code := -2
      , execution_time := 0
      , failure_analysis := none }
    , st )
  else if st.dry_run then
    let priv_msg :=
      if priv_check.degraded_mode then
        "\n[Privilege Status: " ++ priv_check.message ++ "]"
      else ""
    ( { success := true
      , stdout := "[DRY RUN] Would execute: " ++ command ++ priv_msg
      , stderr := ""
      , return_code := 0
      , execution_time := 0
      , failure_analysis := none }
    , st )
  else
    -- subprocess.run(["powershell", "-Command", command], ...)
    let st := { st with spawn_count := st.spawn_count + 1 }
    match outcome with
    | .completed out err rc dur =>
      let failure_analysis :=
        if rc ≠ 0 then
          -- error_message=result.stderr or result.stdout
          some (Failure.classify (if err ≠ "" then err else out) rc operation_type)
        else none
      let exec_result : ExecutionResult :=
        { success := rc = 0
        , stdout := out
        , stderr := err
        , return_code := rc
        , execution_time := dur
        , failure_analysis := failure_analysis }
      (exec_result, log_execution st command exec_result)
    | .timedOut =>
      let msg := "Command timed out after " ++ toString timeout ++ " seconds"
      ( { success := false
        , stdout := ""
        , stderr := msg
        , return_code := -1
        , execution_time := timeout
        , failure_analysis := some (Failure.classify msg (-1) operation_type) }
      , st )
    | .raised m =>
      ( { success := false
        , stdout := ""
        , stderr := m
        , return_code := -1
        , execution_time := 0
        , failure_analysis := some (Failure.classify m (-1) operation_type) }
      , st )

end Executor

section ExecutorChecks

/-- A concrete non-admin executor state used in several checks. -/
def stdUserState : Executor.State :=
  { dry_run := false
  , log_path := some "./logs/execution.jsonl"
  , execution_history := []
  , log_lines := []
  , priv_level := .STANDARD_USER
  , spawn_count := 0 }

/-- A concrete admin executor state used in several checks. -/
def adminState : Executor.State :=
  { dry_run := false
  , log_path := some "./logs/execution.jsonl"
  , execution_history := []
  , log_lines := []
  , priv_level := .ADMIN
  , spawn_count := 0 }

example :
    (Executor.execute stdUserState "reg add HKLM" 30 "registry_write" "").1.return_code
      = -2 := by decide
example :
    (Executor.execute stdUserState "reg add HKLM" 30 "registry_write" "").2.spawn_count
      = 0 := by decide
example :
    (Executor.execute adminState "Get-Date" 30 "general" ""
      (.completed "ok" "" 0 1)).1.success = true := by decide
example :
    ((Executor.execute adminState "Get-Date" 30 "general" ""
      (.completed "ok" "" 0 1)).2.execution_history).length = 1 := by decide
example :
    ((Executor.execute adminState "Get-Date" 30 "general" ""
      Executor.SpawnOutcome.timedOut).2.execution_history).length = 0 := by decide
example :
    (Executor.execute adminState "Get-Date" 30 "general" ""
      Executor.SpawnOutcome.timedOut).1.stderr
      = "Command timed out after 30 seconds" := by decide

end ExecutorChecks

namespace Pipeline

open PyStr

/-- The audit events written by `process_request` via `AuditLogger`
(audit.py lines 27-118): `log_request`, `log_cancellation`, `log_execution`.
Timestamps are wall clock and not modelled. -/
inductive AuditEvent where
  | user_request (request : String)
  | command_cancelled (user_request command : String)
  | command_executed (user_request command : String) (success : Bool)
deriving Repr, DecidableEq

/-- The observable trace of one `process_request` call
(cli_phase3.py lines 407-491): the audit entries appended (in order), the
commands passed to `executor.execute`, and whether the sandbox refusal
message was printed. -/
structure Trace where
  audit : List AuditEvent
  executor_calls : List String
  refusal_printed : Bool
deriving Repr, DecidableEq

/-- `AIAgentCLIPhase3.process_request` (cli_phase3.py lines 407-491) as a
function of its external inputs: the sandbox configuration, the process-wide
dry-run flag, the user request, the command and explanation returned by the
intent translator (`command_data.get("command", "")`), the raw confirmation
response read from stdin, and the success bit of the executed command.
The dry-run branch calls the dry-run simulator, not the executor. -/
def process_request (cfg : Sandbox.Config) (dry_run_mode : Bool)
    (user_request command _explanation user_response : String)
    (exec_success : Bool) : Trace :=
  let audit0 := [AuditEvent.user_request user_request]
  if command = "" then
    { audit := audit0, executor_calls := [], refusal_printed := false }
  else
    let validation := Sandbox.validate_command cfg command
    if validation.allowed = false then
      { audit := audit0, executor_calls := [], refusal_printed := true }
    else if dry_run_mode then
      { audit := audit0, executor_calls := [], refusal_printed := false }
    else
      -- response = input().strip().lower()
      let response := pyLower (pyStrip user_response)
      if response ≠ "yes" ∧ response ≠ "y" then
        { audit := audit0 ++ [AuditEvent.command_cancelled user_request command]
        , executor_calls := []
        , refusal_printed := false }
      else
        { audit := audit0 ++
            [AuditEvent.command_executed user_request command exec_success]
        , executor_calls := [command]
        , refusal_printed := false }

end Pipeline

section PipelineChecks

example :
    (Pipeline.process_request ⟨[], []⟩ false "wipe it" "rm -rf /" "" "yes" true).executor_calls
      = [] := by decide
example :
    (Pipeline.process_request ⟨[], []⟩ false "list" "get-process" "" "No " true).audit
      = [.user_request "list", .command_cancelled "list" "get-process"] := by decide
example :
    (Pipeline.process_request ⟨[], []⟩ false "list" "get-process" "" " YES" true).executor_calls
      = ["get-process"] := by decide

end PipelineChecks

namespace Backup

/-- What the file system holds at a path, as far as `create_backup` looks:
nothing (`os.path.exists` false), a regular file with its size, a directory
with its total content size (`_get_dir_size`), or something that is neither
a file nor a directory (which the source appends without copying). -/
inductive FSEntry where
  | missing
  | file (size : Nat)
  | dir (size : Nat)
  | other
deriving Repr, DecidableEq

/-- `BackupInfo` dataclass (backup_manager.py lines 17-27); the wall-clock
`timestamp` field is not modelled. -/
structure BackupInfo where
  backup_id : String
  operation : String
  items_backed_up : List String
  backup_location : String
  can_restore : Bool
  size_bytes : Nat
deriving Repr, DecidableEq

/-- The state a `BackupManager` touches: the persisted index
(`self.backups`, rewritten by `_save_backup_index`) plus a trace of the
backup directories created and removed on disk. -/
structure State where
  backup_root : String
  backups : List (String × BackupInfo)
  created_dirs : List String
  removed_dirs : List String
deriving Repr, DecidableEq

/-- The per-item loop of `create_backup` (backup_manager.py lines 87-108):
missing paths are skipped before the inner `try`; an inner copy failure
(modelled by the oracle `copyFails`) skips the item; otherwise the item is
appended and its size added (files via `os.path.getsize`, directories via
`_get_dir_size`, other entries copy nothing and add no size). -/
def backupLoop (fs : String → FSEntry) (copyFails : String → Bool)
    (items : List String) : List String × Nat :=
  items.foldl
    (fun acc p =>
      match fs p with
      | .missing => acc
      | .file n => if copyFails p then acc else (acc.1 ++ [p], acc.2 + n)
      | .dir n => if copyFails p then acc else (acc.1 ++ [p], acc.2 + n)
      | .other => if copyFails p then acc else (acc.1 ++ [p], acc.2))
    ([], 0)

/-- `BackupManager.create_backup` (backup_manager.py lines 68-145).
`backup_id` (derived from the wall clock in the source) is a parameter.
The backup directory is created up front; when no item could be backed up
it is removed again (`shutil.rmtree`), no record is persisted and the call
returns `None`.  Otherwise the `BackupInfo` is recorded in the index and
the index is persisted.  Failures of `mkdir` or of the metadata write
(the outer `except`, also environmental) are not modelled. -/
def create_backup (st : State) (fs : String → FSEntry) (copyFails : String → Bool)
    (backup_id : String) (items : List String) (operation : String) :
    Option BackupInfo × State :=
  let backup_dir := st.backup_root ++ "/" ++ backup_id
  let st := { st with created_dirs := st.created_dirs ++ [backup_dir] }
  let (backed_up_items, total_size) := backupLoop fs copyFails items
  if backed_up_items = [] then
    (none, { st with removed_dirs := st.removed_dirs ++ [backup_dir] })
  else
    let info : BackupInfo :=
      { backup_id := backup_id
      , operation := operation
      , items_backed_up := backed_up_items
      , backup_location := backup_dir
      , can_restore := true
      , size_bytes := total_size }
    (some info, { st with backups := st.backups ++ [(backup_id, info)] })

end Backup

section BackupChecks

def fsTwo : String → Backup.FSEntry :=
  fun p => if p = "C:/a.txt" then .file 100 else .missing

example :
    ((Backup.create_backup ⟨"./backups", [], [], []⟩ fsTwo (fun _ => false)
      "backup_1" ["C:/a.txt", "C:/b.txt"] "delete").1.map
        Backup.BackupInfo.items_backed_up) = some ["C:/a.txt"] := by decide
example :
    (Backup.create_backup ⟨"./backups", [], [], []⟩ fsTwo (fun _ => false)
      "backup_1" ["C:/b.txt"] "delete").1 = none := by decide

end BackupChecks

/-- Claim C1: every command matching one of the Sandbox Policy's
dangerous-pattern signatures (regex-searched over the lowercased, stripped
command) is rejected by `validate_command` with `allowed=false` and
`risk_level=CRITICAL`, and `process_request` prints a refusal and returns
without ever calling `executor.execute`, for any sandbox configuration,
dry-run mode, request text, confirmation response and execution outcome. -/
theorem claim_C1_dangerous_pattern_blocks (cfg : Sandbox.Config) (dry : Bool)
    (user_request command explanation user_response : String) (exec_success : Bool)
    (h : Sandbox.dangerousHit command = true) :
    (Sandbox.validate_command cfg command).allowed = false ∧
    (Sandbox.validate_command cfg command).risk_level = "CRITICAL" ∧
    (Pipeline.process_request cfg dry user_request command explanation
      user_response exec_success).executor_calls = [] ∧
    (Pipeline.process_request cfg dry user_request command explanation
      user_response exec_success).refusal_printed = true := by
  have hne : command ≠ "" := by
    intro he
    rw [he] at h
    exact absurd h (by decide)
  refine ⟨?_, ?_, ?_, ?_⟩ <;>
    simp [Sandbox.validate_command, Pipeline.process_request, h, hne]

/-- Witness for C1: the command `rm -rf /` matches a sandbox dangerous
pattern, is refused with CRITICAL, and never reaches the executor. -/
theorem claim_C1_dangerous_pattern_blocks_witness :
    Sandbox.dangerousHit "rm -rf /" = true ∧
    ((Sandbox.validate_command ⟨[], []⟩ "rm -rf /").allowed = false ∧
     (Sandbox.validate_command ⟨[], []⟩ "rm -rf /").risk_level = "CRITICAL" ∧
     (Pipeline.process_request ⟨[], []⟩ false "wipe the disk" "rm -rf /" ""
       "yes" true).executor_calls = [] ∧
     (Pipeline.process_request ⟨[], []⟩ false "wipe the disk" "rm -rf /" ""
       "yes" true).refusal_printed = true) :=
  ⟨by decide,
   claim_C1_dangerous_pattern_blocks ⟨[], []⟩ false "wipe the disk" "rm -rf /"
     "" "yes" true (by decide)⟩

/-- Claim C2 (evaluation at the failing input): for
`Remove-Item -Recurse C:\` the Risk Classifier does return `dangerous` with
`is_safe=false` as the claim states, but the Sandbox Policy returns
`allowed=true` with `risk_level=MEDIUM`, not `allowed=false`/`CRITICAL`:
its `Remove-Item` dangerous pattern is searched case-sensitively over the
lowercased command and demands a doubled backslash before `Windows`, so it
cannot match. -/
theorem claim_C2_remove_item_drive_root_eval :
    Validators.validate "Remove-Item -Recurse C:\\"
      = (false, ["Command contains dangerous operation"], "dangerous") ∧
    Sandbox.validate_command ⟨[], []⟩ "Remove-Item -Recurse C:\\"
      = { allowed := true
        , reason := "Command passed safety checks but is not in safe list"
        , risk_level := "MEDIUM" } :=
  ⟨by decide, by decide⟩

/-- Claim C3 (evaluation at the failing input): `validate_command` never
consults the user allowlist — its result is independent of the
`custom_allowlist` field — and a command that exactly matches an allowlist
entry (and no deny rule) is returned as MEDIUM, not LOW. -/
theorem claim_C3_allowlist_never_consulted :
    (∀ (dl al al' : List String) (command : String),
      Sandbox.validate_command ⟨dl, al⟩ command
        = Sandbox.validate_command ⟨dl, al'⟩ command) ∧
    Sandbox.validate_command ⟨[], ["foobar"]⟩ "foobar"
      = { allowed := true
        , reason := "Command passed safety checks but is not in safe list"
        , risk_level := "MEDIUM" } := by
  constructor
  · intro dl al al' command
    rfl
  · decide

/-- Claim C10: a command containing the two-letter sequence `rm` anywhere
(case-insensitively), matching no validator dangerous pattern and starting
with no safe-list command, is classified `is_safe=true`, tier `caution`,
with the deletion warning — the destructive-deletion check is a regex
search, not a token match. -/
theorem claim_C10_rm_substring_caution (command : String)
    (h1 : Rex.containsSub "rm" (PyStr.lowerList command.toList) = true)
    (h2 : Validators.dangerousHit command = false)
    (h3 : Validators.safeHit command = false) :
    (Validators.validate command).1 = true ∧
    (Validators.validate command).2.2 = "caution" ∧
    "This command will delete files/folders" ∈ (Validators.validate command).2.1 := by
  have hdel : Validators.deletionHit command = true := by
    simp [Validators.deletionHit, Validators.DELETION_PATTERNS]
    exact Or.inr (Or.inl h1)
  refine ⟨?_, ?_, ?_⟩ <;> simp [Validators.validate, h2, h3, hdel]

/-- Witness for C10: `perform task` contains `rm` only inside the benign
word `perform`, yet is classified caution with the deletion warning. -/
theorem claim_C10_rm_substring_caution_witness :
    Rex.containsSub "rm" (PyStr.lowerList "perform task".toList) = true ∧
    Validators.dangerousHit "perform task" = false ∧
    Validators.safeHit "perform task" = false ∧
    ((Validators.validate "perform task").1 = true ∧
     (Validators.validate "perform task").2.2 = "caution" ∧
     "This command will delete files/folders"
       ∈ (Validators.validate "perform task").2.1) :=
  ⟨by decide, by decide, by decide,
   claim_C10_rm_substring_caution "perform task" (by decide) (by decide) (by decide)⟩

/-- Claim C4: for every operation type in the requires-admin set, under a
non-admin privilege level, `check_operation` yields `can_proceed=false` and
`degraded=true`, and `execute` returns a failed result whose stderr is the
privilege message plus the remediation suggestions, without incrementing the
subprocess-spawn counter (and leaving the execution history untouched). -/
theorem claim_C4_requires_admin_refusal (st : Executor.State) (command : String)
    (timeout : Int) (operation_type operation_name : String)
    (outcome : Executor.SpawnOutcome)
    (hop : Privilege.admin_only_operations.contains operation_type = true)
    (hlevel : st.priv_level ≠ .ADMIN) :
    (Privilege.check_operation st.priv_level operation_type operation_name).can_proceed
      = false ∧
    (Privilege.check_operation st.priv_level operation_type operation_name).degraded_mode
      = true ∧
    (Executor.execute st command timeout operation_type operation_name outcome).1.success
      = false ∧
    (Executor.execute st command timeout operation_type operation_name outcome).1.stderr
      = Executor.privStderr
          (Privilege.check_operation st.priv_level operation_type operation_name) ∧
    (Executor.execute st command timeout operation_type operation_name outcome).2
      = st := by
  have hop2 : operation_type ∈ Privilege.admin_only_operations := by
    simpa using hop
  have hcp : (Privilege.check_operation st.priv_level operation_type
      operation_name).can_proceed = false := by
    simp [Privilege.check_operation, hop2, hlevel]
  have hdm : (Privilege.check_operation st.priv_level operation_type
      operation_name).degraded_mode = true := by
    simp [Privilege.check_operation, hop2, hlevel]
  refine ⟨hcp, hdm, ?_, ?_, ?_⟩ <;> simp [Executor.execute, hcp]

/-- Witness for C4: `registry_write` as a standard user. -/
theorem claim_C4_requires_admin_refusal_witness :
    Privilege.admin_only_operations.contains "registry_write" = true ∧
    stdUserState.priv_level ≠ .ADMIN ∧
    ((Privilege.check_operation stdUserState.priv_level "registry_write" "").can_proceed
        = false ∧
     (Privilege.check_operation stdUserState.priv_level "registry_write" "").degraded_mode
        = true ∧
     (Executor.execute stdUserState "reg add HKLM" 30 "registry_write" ""
        (.completed "" "" 0 0)).1.success = false ∧
     (Executor.execute stdUserState "reg add HKLM" 30 "registry_write" ""
        (.completed "" "" 0 0)).1.stderr
        = Executor.privStderr
            (Privilege.check_operation stdUserState.priv_level "registry_write" "") ∧
     (Executor.execute stdUserState "reg add HKLM" 30 "registry_write" ""
        (.completed "" "" 0 0)).2 = stdUserState) :=
  ⟨by decide, by decide,
   claim_C4_requires_admin_refusal stdUserState "reg add HKLM" 30 "registry_write" ""
     (.completed "" "" 0 0) (by decide) (by decide)⟩

/-- Claim C5: when the user declines confirmation (any response whose
stripped, lowercased form is neither `yes` nor `y`) of an allowed, nonempty
generated command outside dry-run mode, the executor receives no call and
the audit trail of the request consists of the `user_request` event followed
by a `command_cancelled` event recording the original request and the
command. -/
theorem claim_C5_denied_confirmation_cancels (cfg : Sandbox.Config)
    (user_request command explanation user_response : String) (exec_success : Bool)
    (hcmd : command ≠ "")
    (hallow : (Sandbox.validate_command cfg command).allowed = true)
    (hresp1 : PyStr.pyLower (PyStr.pyStrip user_response) ≠ "yes")
    (hresp2 : PyStr.pyLower (PyStr.pyStrip user_response) ≠ "y") :
    (Pipeline.process_request cfg false user_request command explanation
      user_response exec_success).executor_calls = [] ∧
    (Pipeline.process_request cfg false user_request command explanation
      user_response exec_success).audit
      = [.user_request user_request, .command_cancelled user_request command] := by
  refine ⟨?_, ?_⟩ <;>
    simp [Pipeline.process_request, hcmd, hallow, hresp1, hresp2]

/-- Witness for C5: declining `get-process` with ` No `. -/
theorem claim_C5_denied_confirmation_cancels_witness :
    "get-process" ≠ "" ∧
    (Sandbox.validate_command ⟨[], []⟩ "get-process").allowed = true ∧
    PyStr.pyLower (PyStr.pyStrip " No ") ≠ "yes" ∧
    PyStr.pyLower (PyStr.pyStrip " No ") ≠ "y" ∧
    ((Pipeline.process_request ⟨[], []⟩ false "show processes" "get-process" ""
        " No " true).executor_calls = [] ∧
     (Pipeline.process_request ⟨[], []⟩ false "show processes" "get-process" ""
        " No " true).audit
        = [.user_request "show processes",
           .command_cancelled "show processes" "get-process"]) :=
  ⟨by decide, by decide, by decide, by decide,
   claim_C5_denied_confirmation_cancels ⟨[], []⟩ "show processes" "get-process" ""
     " No " true (by decide) (by decide) (by decide) (by decide)⟩

/-- Helper: every key of the classification pattern table is a
non-`UNKNOWN` category. -/
theorem patterns_keys_ne_unknown :
    Failure.patterns.all
      (fun e => decide (e.1 ≠ Failure.FailureType.UNKNOWN)) = true := by
  decide

/-- Helper: when some classification pattern matches the error text, the
detected failure type is the first matching table key, hence never
`UNKNOWN`. -/
theorem detect_hit_ne_unknown (msg : String) (rc : Int)
    (h : Failure.anyPatternHit msg = true) :
    Failure.detect_failure_type msg rc ≠ .UNKNOWN := by
  unfold Failure.anyPatternHit at h
  rw [List.any_eq_true] at h
  obtain ⟨e, he, hpe⟩ := h
  have hsome : (Failure.patterns.find?
      (fun e => e.2.any
        (fun p => Rex.searchToks p (PyStr.lowerList msg.toList)))).isSome := by
    rw [List.find?_isSome]
    exact ⟨e, he, hpe⟩
  obtain ⟨e2, hfind⟩ := Option.isSome_iff_exists.mp hsome
  have hmem := List.mem_of_find?_eq_some hfind
  have hne := of_decide_eq_true (List.all_eq_true.mp patterns_keys_ne_unknown e2 hmem)
  unfold Failure.detect_failure_type
  rw [hfind]
  exact hne

/-- Counterexample to claim C6 as stated: the privilege-refusal path of
`execute` returns an `ExecutionResult` with nonzero return code (-2) that
carries no `FailureAnalysis`. -/
theorem claim_C6_counterexample :
    (Executor.execute stdUserState "reg add HKLM" 30 "registry_write" ""
      (.completed "" "" 0 0)).1.return_code ≠ 0 ∧
    (Executor.execute stdUserState "reg add HKLM" 30 "registry_write" ""
      (.completed "" "" 0 0)).1.failure_analysis = none :=
  ⟨by decide, by decide⟩

/-- Claim C6 as amended: a result with return code 0 never carries a
`FailureAnalysis`; the privilege-refusal result (return code -2) carries
none either; every result of an actual spawn attempt with nonzero return
code carries one; and any carried analysis has a non-`UNKNOWN` category
whenever its error text matches one of the documented classification
patterns. -/
theorem claim_C6_amended_analysis_presence (st : Executor.State) (command : String)
    (timeout : Int) (operation_type operation_name : String)
    (outcome : Executor.SpawnOutcome) (r : Executor.ExecutionResult)
    (hr : r = (Executor.execute st command timeout operation_type operation_name
      outcome).1) :
    (r.return_code = 0 → r.failure_analysis = none) ∧
    ((Privilege.check_operation st.priv_level operation_type
        operation_name).can_proceed = false →
      r.return_code = -2 ∧ r.failure_analysis = none) ∧
    ((Privilege.check_operation st.priv_level operation_type
        operation_name).can_proceed = true → st.dry_run = false →
      r.return_code ≠ 0 → r.failure_analysis.isSome = true) ∧
    (∀ fa, r.failure_analysis = some fa →
      Failure.anyPatternHit fa.original_error = true →
      fa.failure_type ≠ .UNKNOWN) := by
  subst hr
  cases hcp : (Privilege.check_operation st.priv_level operation_type
      operation_name).can_proceed with
  | false =>
    have hres : (Executor.execute st command timeout operation_type operation_name
        outcome).1.failure_analysis = none := by
      simp [Executor.execute, hcp]
    have hrc : (Executor.execute st command timeout operation_type operation_name
        outcome).1.return_code = -2 := by
      simp [Executor.execute, hcp]
    refine ⟨?_, ?_, ?_, ?_⟩
    · intro h0
      rw [hrc] at h0
      exact absurd h0 (by decide)
    · intro _
      exact ⟨hrc, hres⟩
    · intro h2
      exact Bool.noConfusion h2
    · intro fa hfa
      rw [hres] at hfa
      cases hfa
  | true =>
    cases hdr : st.dry_run with
    | true =>
      have hres : (Executor.execute st command timeout operation_type operation_name
          outcome).1.failure_analysis = none := by
        simp [Executor.execute, hcp, hdr]
      have hrc : (Executor.execute st command timeout operation_type operation_name
          outcome).1.return_code = 0 := by
        simp [Executor.execute, hcp, hdr]
      refine ⟨fun _ => hres, ?_, ?_, ?_⟩
      · intro h2
        exact Bool.noConfusion h2
      · intro _ h2 _
        exact Bool.noConfusion h2
      · intro fa hfa
        rw [hres] at hfa
        cases hfa
    | false =>
      cases outcome with
      | completed out err rc dur =>
        by_cases hrc0 : rc = 0
        · subst hrc0
          have hres : (Executor.execute st command timeout operation_type
              operation_name (.completed out err 0 dur)).1.failure_analysis = none := by
            simp [Executor.execute, hcp, hdr]
          have hrc : (Executor.execute st command timeout operation_type
              operation_name (.completed out err 0 dur)).1.return_code = 0 := by
            simp [Executor.execute, hcp, hdr]
          refine ⟨fun _ => hres, ?_, ?_, ?_⟩
          · intro h2
            exact Bool.noConfusion h2
          · intro _ _ hne
            rw [hrc] at hne
            exact absurd rfl hne
          · intro fa hfa
            rw [hres] at hfa
            cases hfa
        · have hres : (Executor.execute st command timeout operation_type
              operation_name (.completed out err rc dur)).1.failure_analysis
              = some (Failure.classify (if err ≠ "" then err else out) rc
                  operation_type) := by
            simp [Executor.execute, hcp, hdr, hrc0]
          have hrc : (Executor.execute st command timeout operation_type
              operation_name (.completed out err rc dur)).1.return_code = rc := by
            simp [Executor.execute, hcp, hdr]
          refine ⟨?_, ?_, ?_, ?_⟩
          · intro h0
            rw [hrc] at h0
            exact absurd h0 hrc0
          · intro h2
            exact Bool.noConfusion h2
          · intro _ _ _
            rw [hres]
            rfl
          · intro fa hfa hhit
            rw [hres] at hfa
            cases hfa
            exact detect_hit_ne_unknown _ rc hhit
      | timedOut =>
        have hres : (Executor.execute st command timeout operation_type
            operation_name .timedOut).1.failure_analysis
            = some (Failure.classify
                ("Command timed out after " ++ toString timeout ++ " seconds")
                (-1) operation_type) := by
          simp [Executor.execute, hcp, hdr]
        have hrc : (Executor.execute st command timeout operation_type
            operation_name .timedOut).1.return_code = -1 := by
          simp [Executor.execute, hcp, hdr]
        refine ⟨?_, ?_, ?_, ?_⟩
        · intro h0
          rw [hrc] at h0
          exact absurd h0 (by decide)
        · intro h2
          exact Bool.noConfusion h2
        · intro _ _ _
          rw [hres]
          rfl
        · intro fa hfa hhit
          rw [hres] at hfa
          cases hfa
          exact detect_hit_ne_unknown _ (-1) hhit
      | raised m =>
        have hres : (Executor.execute st command timeout operation_type
            operation_name (.raised m)).1.failure_analysis
            = some (Failure.classify m (-1) operation_type) := by
          simp [Executor.execute, hcp, hdr]
        have hrc : (Executor.execute st command timeout operation_type
            operation_name (.raised m)).1.return_code = -1 := by
          simp [Executor.execute, hcp, hdr]
        refine ⟨?_, ?_, ?_, ?_⟩
        · intro h0
          rw [hrc] at h0
          exact absurd h0 (by decide)
        · intro h2
          exact Bool.noConfusion h2
        · intro _ _ _
          rw [hres]
          rfl
        · intro fa hfa hhit
          rw [hres] at hfa
          cases hfa
          exact detect_hit_ne_unknown _ (-1) hhit

/-- Witness for the amended C6: a nonzero-exit run whose stderr matches a
documented pattern carries a present, non-`UNKNOWN` analysis. -/
theorem claim_C6_amended_analysis_presence_witness :
    (Privilege.check_operation adminState.priv_level "general" "").can_proceed = true ∧
    adminState.dry_run = false ∧
    (Executor.execute adminState "Stop-Service Foo" 30 "general" ""
      (.completed "" "Access is denied" 5 1)).1.return_code ≠ 0 ∧
    (Executor.execute adminState "Stop-Service Foo" 30 "general" ""
      (.completed "" "Access is denied" 5 1)).1.failure_analysis.isSome = true :=
  ⟨by decide, by decide, by decide,
   (claim_C6_amended_analysis_presence adminState "Stop-Service Foo" 30 "general" ""
      (.completed "" "Access is denied" 5 1) _ rfl).2.2.1
     (by decide) (by decide) (by decide)⟩

/-- Counterexample to claim C7 as stated: an error text matching the
`invalid_syntax` patterns is classified as `INVALID_SYNTAX` yet marked
non-recoverable, because the `recovery_guides` dict has no entry for that
category and `_get_recovery_info` falls back to the `UNKNOWN` bundle. -/
theorem claim_C7_counterexample :
    (Failure.classify "syntax error" (-1) "").failure_type = .INVALID_SYNTAX ∧
    (Failure.classify "syntax error" (-1) "").is_recoverable = false :=
  ⟨by decide, by decide⟩

/-- Claim C7 as amended: an analysis is non-recoverable exactly when its
category is `UNKNOWN` or `INVALID_SYNTAX` (the latter inherits the
`UNKNOWN` recovery bundle); every other category is recoverable. -/
theorem claim_C7_amended_recoverability (msg : String) (rc : Int) (op : String) :
    (Failure.classify msg rc op).is_recoverable = false ↔
      ((Failure.classify msg rc op).failure_type = .UNKNOWN ∨
       (Failure.classify msg rc op).failure_type = .INVALID_SYNTAX) := by
  have h1 : (Failure.classify msg rc op).failure_type
      = Failure.detect_failure_type msg rc := rfl
  have h2 : (Failure.classify msg rc op).is_recoverable
      = (Failure.get_recovery_info (Failure.detect_failure_type msg rc) op).recoverable :=
    rfl
  rw [h1, h2]
  cases Failure.detect_failure_type msg rc <;>
    simp [Failure.get_recovery_info, Failure.unknownGuide]

/-- Counterexample to claim C8 as stated: a timed-out execution attempt (the
spawn counter does advance, so an attempt was made) leaves the in-memory
execution history and the log-file lines untouched — no entry is appended. -/
theorem claim_C8_counterexample :
    (Executor.execute adminState "Get-Date" 30 "general" ""
      Executor.SpawnOutcome.timedOut).2.spawn_count = 1 ∧
    (Executor.execute adminState "Get-Date" 30 "general" ""
      Executor.SpawnOutcome.timedOut).2.execution_history = [] ∧
    (Executor.execute adminState "Get-Date" 30 "general" ""
      Executor.SpawnOutcome.timedOut).2.log_lines = [] :=
  ⟨by decide, by decide, by decide⟩

/-- Claim C8 as amended: for attempts that pass the privilege check outside
dry-run mode, only a subprocess that runs to completion (any exit code)
appends exactly one entry — the stripped command plus its result — to the
in-memory history, and one line to the log file when a log path is
configured; timed-out and exception-raising attempts append nothing to
either. -/
theorem claim_C8_amended_history_logging (st : Executor.State) (command : String)
    (timeout : Int) (operation_type operation_name : String)
    (hcp : (Privilege.check_operation st.priv_level operation_type
      operation_name).can_proceed = true)
    (hdr : st.dry_run = false) :
    (∀ out err rc dur,
      (Executor.execute st command timeout operation_type operation_name
        (.completed out err rc dur)).2.execution_history
        = st.execution_history ++
          [⟨PyStr.pyStrip (PyStr.stripBackticks command),
            (Executor.execute st command timeout operation_type operation_name
              (.completed out err rc dur)).1⟩] ∧
      (st.log_path.isSome = true →
        (Executor.execute st command timeout operation_type operation_name
          (.completed out err rc dur)).2.log_lines
          = st.log_lines ++
            [⟨PyStr.pyStrip (PyStr.stripBackticks command),
              (Executor.execute st command timeout operation_type operation_name
                (.completed out err rc dur)).1⟩]) ∧
      (st.log_path = none →
        (Executor.execute st command timeout operation_type operation_name
          (.completed out err rc dur)).2.log_lines = st.log_lines)) ∧
    ((Executor.execute st command timeout operation_type operation_name
        .timedOut).2.execution_history = st.execution_history ∧
     (Executor.execute st command timeout operation_type operation_name
        .timedOut).2.log_lines = st.log_lines) ∧
    (∀ m,
      (Executor.execute st command timeout operation_type operation_name
        (.raised m)).2.execution_history = st.execution_history ∧
      (Executor.execute st command timeout operation_type operation_name
        (.raised m)).2.log_lines = st.log_lines) := by
  refine ⟨?_, ?_, ?_⟩
  · intro out err rc dur
    cases hlp : st.log_path with
    | none =>
      refine ⟨?_, ?_, ?_⟩ <;>
        simp [Executor.execute, Executor.log_execution, hcp, hdr, hlp]
    | some p =>
      refine ⟨?_, ?_, ?_⟩ <;>
        simp [Executor.execute, Executor.log_execution, hcp, hdr, hlp]
  · constructor <;> simp [Executor.execute, hcp, hdr]
  · intro m
    constructor <;> simp [Executor.execute, hcp, hdr]

/-- Witness for the amended C8: a completed run appends exactly one history
entry and one log line, and a timed-out run appends nothing. -/
theorem claim_C8_amended_history_logging_witness :
    (Privilege.check_operation adminState.priv_level "general" "").can_proceed = true ∧
    adminState.dry_run = false ∧
    (Executor.execute adminState "Get-Date" 30 "general" ""
      (.completed "ok" "" 0 1)).2.execution_history
      = adminState.execution_history ++
        [⟨PyStr.pyStrip (PyStr.stripBackticks "Get-Date"),
          (Executor.execute adminState "Get-Date" 30 "general" ""
            (.completed "ok" "" 0 1)).1⟩] ∧
    (Executor.execute adminState "Get-Date" 30 "general" ""
      Executor.SpawnOutcome.timedOut).2.execution_history
      = adminState.execution_history :=
  ⟨by decide, by decide,
   ((claim_C8_amended_history_logging adminState "Get-Date" 30 "general" ""
      (by decide) (by decide)).1 "ok" "" 0 1).1,
   (claim_C8_amended_history_logging adminState "Get-Date" 30 "general" ""
      (by decide) (by decide)).2.1.1⟩

/-- Helper: the per-item backup loop leaves the accumulator unchanged when
every item is missing on disk or fails to copy. -/
theorem backupLoop_all_skipped (fs : String → Backup.FSEntry)
    (copyFails : String → Bool) :
    ∀ (items : List String) (acc : List String × Nat),
      (∀ p ∈ items, fs p = Backup.FSEntry.missing ∨ copyFails p = true) →
      List.foldl
        (fun acc p =>
          match fs p with
          | .missing => acc
          | .file n => if copyFails p then acc else (acc.1 ++ [p], acc.2 + n)
          | .dir n => if copyFails p then acc else (acc.1 ++ [p], acc.2 + n)
          | .other => if copyFails p then acc else (acc.1 ++ [p], acc.2))
        acc items = acc := by
  intro items
  induction items with
  | nil => intro acc _; rfl
  | cons p rest ih =>
    intro acc h
    have hp := h p (List.mem_cons_self p rest)
    have hrest : ∀ q ∈ rest, fs q = Backup.FSEntry.missing ∨ copyFails q = true :=
      fun q hq => h q (List.mem_cons_of_mem p hq)
    rw [List.foldl_cons]
    rcases hp with hm | hc
    · rw [show (match fs p with
          | Backup.FSEntry.missing => acc
          | .file n => if copyFails p then acc else (acc.1 ++ [p], acc.2 + n)
          | .dir n => if copyFails p then acc else (acc.1 ++ [p], acc.2 + n)
          | .other => if copyFails p then acc else (acc.1 ++ [p], acc.2)) = acc
        from by rw [hm]]
      exact ih acc hrest
    · cases hfs : fs p <;> simp only [hfs, hc, if_true] <;> exact ih acc hrest

/-- Claim C9: `create_backup` skips missing or uncopyable paths without
aborting the batch — with two files of which one is missing, the recorded
`BackupInfo` lists exactly the existing path and counts only its size, and
the record is appended to the persisted index; when no item could be backed
up, the freshly created backup directory is removed, the index is left
unchanged, and the call returns `none`. -/
theorem claim_C9_backup_partial_batch (st : Backup.State)
    (fs : String → Backup.FSEntry) (copyFails : String → Bool)
    (backup_id p1 p2 operation : String) (n : Nat)
    (h1 : fs p1 = .file n) (h2 : fs p2 = .missing) (h3 : copyFails p1 = false) :
    ((Backup.create_backup st fs copyFails backup_id [p1, p2] operation).1
        = some
          { backup_id := backup_id
          , operation := operation
          , items_backed_up := [p1]
          , backup_location := st.backup_root ++ "/" ++ backup_id
          , can_restore := true
          , size_bytes := n } ∧
      (Backup.create_backup st fs copyFails backup_id [p1, p2] operation).2.backups
        = st.backups ++
          [(backup_id,
            { backup_id := backup_id
            , operation := operation
            , items_backed_up := [p1]
            , backup_location := st.backup_root ++ "/" ++ backup_id
            , can_restore := true
            , size_bytes := n })]) ∧
    (∀ items : List String,
      (∀ p ∈ items, fs p = Backup.FSEntry.missing ∨ copyFails p = true) →
      (Backup.create_backup st fs copyFails backup_id items operation).1 = none ∧
      (Backup.create_backup st fs copyFails backup_id items operation).2.backups
        = st.backups ∧
      (Backup.create_backup st fs copyFails backup_id items operation).2.removed_dirs
        = st.removed_dirs ++ [st.backup_root ++ "/" ++ backup_id]) := by
  constructor
  · have hloop : Backup.backupLoop fs copyFails [p1, p2] = ([p1], n) := by
      simp [Backup.backupLoop, h1, h2, h3]
    constructor <;> simp [Backup.create_backup, hloop]
  · intro items hitems
    have hloop : Backup.backupLoop fs copyFails items = ([], 0) :=
      backupLoop_all_skipped fs copyFails items ([], 0) hitems
    refine ⟨?_, ?_, ?_⟩ <;> simp [Backup.create_backup, hloop]

/-- Witness for C9: backing up `C:/a.txt` (100 bytes) together with the
missing `C:/b.txt` records exactly one item of 100 bytes; backing up only
the missing file returns no backup, persists nothing, and removes the
backup directory. -/
theorem claim_C9_backup_partial_batch_witness :
    fsTwo "C:/a.txt" = .file 100 ∧
    fsTwo "C:/b.txt" = .missing ∧
    ((Backup.create_backup ⟨"./backups", [], [], []⟩ fsTwo (fun _ => false)
        "backup_1" ["C:/a.txt", "C:/b.txt"] "delete").1
        = some
          { backup_id := "backup_1"
          , operation := "delete"
          , items_backed_up := ["C:/a.txt"]
          , backup_location := "./backups" ++ "/" ++ "backup_1"
          , can_restore := true
          , size_bytes := 100 } ∧
      (Backup.create_backup ⟨"./backups", [], [], []⟩ fsTwo (fun _ => false)
        "backup_1" ["C:/a.txt", "C:/b.txt"] "delete").2.backups
        = [] ++
          [("backup_1",
            { backup_id := "backup_1"
            , operation := "delete"
            , items_backed_up := ["C:/a.txt"]
            , backup_location := "./backups" ++ "/" ++ "backup_1"
            , can_restore := true
            , size_bytes := 100 })]) ∧
    ((Backup.create_backup ⟨"./backups", [], [], []⟩ fsTwo (fun _ => false)
        "backup_1" ["C:/b.txt"] "delete").1 = none ∧
      (Backup.create_backup ⟨"./backups", [], [], []⟩ fsTwo (fun _ => false)
        "backup_1" ["C:/b.txt"] "delete").2.backups = [] ∧
      (Backup.create_backup ⟨"./backups", [], [], []⟩ fsTwo (fun _ => false)
        "backup_1" ["C:/b.txt"] "delete").2.removed_dirs
        = [] ++ ["./backups" ++ "/" ++ "backup_1"]) :=
  ⟨by decide, by decide,
   (claim_C9_backup_partial_batch ⟨"./backups", [], [], []⟩ fsTwo (fun _ => false)
      "backup_1" "C:/a.txt" "C:/b.txt" "delete" 100
      (by decide) (by decide) (by decide)).1,
   (claim_C9_backup_partial_batch ⟨"./backups", [], [], []⟩ fsTwo (fun _ => false)
      "backup_1" "C:/a.txt" "C:/b.txt" "delete" 100
      (by decide) (by decide) (by decide)).2 ["C:/b.txt"] (by decide)⟩
